import Mathlib

/-!
Verification of the streaming event-object decoder of the
`twitter-stream-message` crate (`src/src/message/event.rs`).

The decoder consumes the key/value pairs of one JSON object in arrival
order and assembles an `Event` record, resolving the coupling between the
`event` discriminator string and the `target_object` payload regardless of
which of the two arrives first.  We embed the decoder shallowly: the
serde `MapAccess` stream becomes a `List (String × JsonValue)`, the
`EventVisitor::visit_map` loop becomes a structurally recursive function,
and serde errors become an explicit `DecodeError` type.

External collaborators (the datetime parser in `util`, and the `Tweet` /
`List` payload types, which are not part of this fragment's sources) are
modelled from the specification at their decode interfaces.
-/

/-- A JSON value, modelling `serde_json::Value` (`types::JsonValue`) as far
as the decoder observes it; the internal representation of numbers is
irrelevant to the decoder and is simplified to `Int`. -/
inductive JsonValue : Type where
  | null : JsonValue
  | bool : Bool → JsonValue
  | num : Int → JsonValue
  | str : String → JsonValue
  | arr : List JsonValue → JsonValue
  | obj : List (String × JsonValue) → JsonValue

/-- Modelled from the spec: the internal instant type produced by the
Datetime Parser (`types::DateTime`, an external collaborator).  We keep the
canonical timestamp string as the representation of the parsed instant. -/
structure DateTime where
  raw : String
deriving DecidableEq, Repr

/-- Modelled from the spec: the Datetime Parser (`util::parse_datetime`,
an external collaborator not under `src/`) converts the API's fixed-format
timestamp string, e.g. `"Mon Jul 16 12:59:01 +0000 2007"` (six
space-separated components, checked here as exactly five space
characters), to an instant; failure is a leaf error carrying the
offending string. -/
def parse_datetime (s : String) : Except String DateTime :=
  if (s.toList.filter (fun c => c = ' ')).length = 5 then .ok ⟨s⟩
  else .error ("invalid date-time string: " ++ s)

/-- Modelled from the spec: the `WithheldScope` type of `types` (an
external collaborator not under `src/`), indicating whether withheld
content is a status or a user; carried as its raw string. -/
structure WithheldScope where
  raw : String
deriving DecidableEq, Repr

/-- Deserializes a JSON boolean, as serde does for a `bool` field. -/
def decodeBool : JsonValue → Except String Bool
  | .bool b => .ok b
  | _ => .error "invalid type: expected a boolean"

/-- Deserializes a non-negative JSON number, as serde does for a `u64`
field. -/
def decodeU64 : JsonValue → Except String Nat
  | .num n => if 0 ≤ n then .ok n.toNat else .error "invalid value: expected u64"
  | _ => .error "invalid type: expected u64"

/-- Deserializes a JSON string, as serde does for a `Cow<str>` field. -/
def decodeStr : JsonValue → Except String String
  | .str x => .ok x
  | _ => .error "invalid type: expected a string"

/-- Modelled from the spec: `util::deserialize_opt_cow_str` (not under
`src/`), used for the optional string fields of `User`: `null` decodes to
`none`, a string to `some`. -/
def decodeOptStr : JsonValue → Except String (Option String)
  | .null => .ok none
  | .str x => .ok (some x)
  | _ => .error "invalid type: expected a string or null"

/-- Deserializes an `Option<bool>` value: `null` to `none`, a boolean to
`some`. -/
def decodeOptBool : JsonValue → Except String (Option Bool)
  | .null => .ok none
  | .bool b => .ok (some b)
  | _ => .error "invalid type: expected a boolean or null"

/-- Deserializes an `Option<i64>` value: `null` to `none`, a number to
`some`. -/
def decodeOptI64 : JsonValue → Except String (Option Int)
  | .null => .ok none
  | .num n => .ok (some n)
  | _ => .error "invalid type: expected an integer or null"

/-- Modelled from the spec for the `WithheldScope` part only: an
`Option<WithheldScope>` value; `null` decodes to `none`, a string to
`some`. -/
def decodeOptWithheldScope : JsonValue → Except String (Option WithheldScope)
  | .null => .ok none
  | .str x => .ok (some ⟨x⟩)
  | _ => .error "invalid type: expected a string or null"

/-- `util::deserialize_datetime` applied to a field value: the value must
be a string and is parsed by the (spec-modelled) datetime parser. -/
def decodeDatetime : JsonValue → Except String DateTime
  | .str x => parse_datetime x
  | _ => .error "invalid type: expected a string"

/-- The `User` struct of `src/src/user.rs`, in declaration order:
borrowed `Cow<str>` fields become `String`, `u64`/`UserId` become `Nat`,
`i64` becomes `Int`.  The Rust field `protected` is a Lean keyword and is
embedded as `protected_`. -/
structure User where
  contributors_enabled : Bool
  created_at : DateTime
  default_profile : Bool
  default_profile_image : Bool
  description : Option String
  favourites_count : Nat
  follow_request_sent : Option Bool
  followers_count : Nat
  friends_count : Nat
  geo_enabled : Bool
  id : Nat
  is_translator : Bool
  lang : String
  listed_count : Nat
  location : Option String
  name : String
  profile_background_color : String
  profile_background_image_url : String
  profile_background_image_url_https : String
  profile_background_tile : Bool
  profile_banner_url : Option String
  profile_image_url : String
  profile_image_url_https : String
  profile_link_color : String
  profile_sidebar_border_color : String
  profile_sidebar_fill_color : String
  profile_text_color : String
  profile_use_background_image : Bool
  protected_ : Bool
  screen_name : String
  statuses_count : Nat
  time_zone : Option String
  url : Option String
  utc_offset : Option Int
  verified : Bool
  withheld_in_countries : Option String
  withheld_scope : Option WithheldScope
deriving DecidableEq, Repr

/-- The partially-filled field slots of the derived `User` deserializer:
one optional slot per struct field, in declaration order. -/
structure UserBuffer where
  contributors_enabled : Option Bool := none
  created_at : Option DateTime := none
  default_profile : Option Bool := none
  default_profile_image : Option Bool := none
  description : Option (Option String) := none
  favourites_count : Option Nat := none
  follow_request_sent : Option (Option Bool) := none
  followers_count : Option Nat := none
  friends_count : Option Nat := none
  geo_enabled : Option Bool := none
  id : Option Nat := none
  is_translator : Option Bool := none
  lang : Option String := none
  listed_count : Option Nat := none
  location : Option (Option String) := none
  name : Option String := none
  profile_background_color : Option String := none
  profile_background_image_url : Option String := none
  profile_background_image_url_https : Option String := none
  profile_background_tile : Option Bool := none
  profile_banner_url : Option (Option String) := none
  profile_image_url : Option String := none
  profile_image_url_https : Option String := none
  profile_link_color : Option String := none
  profile_sidebar_border_color : Option String := none
  profile_sidebar_fill_color : Option String := none
  profile_text_color : Option String := none
  profile_use_background_image : Option Bool := none
  protected_ : Option Bool := none
  screen_name : Option String := none
  statuses_count : Option Nat := none
  time_zone : Option (Option String) := none
  url : Option (Option String) := none
  utc_offset : Option (Option Int) := none
  verified : Option Bool := none
  withheld_in_countries : Option (Option String) := none
  withheld_scope : Option (Option WithheldScope) := none

/-- One key/value step of the derived `User` deserializer: a known field
whose slot is already filled is a duplicate-field error, otherwise its
value is decoded at the field type; unknown keys are ignored (serde keeps
its default of not denying unknown fields). -/
def userStep (buf : UserBuffer) (k : String) (v : JsonValue) :
    Except String UserBuffer :=
  if k = "contributors_enabled" then
    match buf.contributors_enabled with
    | some _ => .error "duplicate field contributors_enabled"
    | none => (decodeBool v).map fun x => { buf with contributors_enabled := some x }
  else if k = "created_at" then
    match buf.created_at with
    | some _ => .error "duplicate field created_at"
    | none => (decodeDatetime v).map fun x => { buf with created_at := some x }
  else if k = "default_profile" then
    match buf.default_profile with
    | some _ => .error "duplicate field default_profile"
    | none => (decodeBool v).map fun x => { buf with default_profile := some x }
  else if k = "default_profile_image" then
    match buf.default_profile_image with
    | some _ => .error "duplicate field default_profile_image"
    | none => (decodeBool v).map fun x => { buf with default_profile_image := some x }
  else if k = "description" then
    match buf.description with
    | some _ => .error "duplicate field description"
    | none => (decodeOptStr v).map fun x => { buf with description := some x }
  else if k = "favourites_count" then
    match buf.favourites_count with
    | some _ => .error "duplicate field favourites_count"
    | none => (decodeU64 v).map fun x => { buf with favourites_count := some x }
  else if k = "follow_request_sent" then
    match buf.follow_request_sent with
    | some _ => .error "duplicate field follow_request_sent"
    | none => (decodeOptBool v).map fun x => { buf with follow_request_sent := some x }
  else if k = "followers_count" then
    match buf.followers_count with
    | some _ => .error "duplicate field followers_count"
    | none => (decodeU64 v).map fun x => { buf with followers_count := some x }
  else if k = "friends_count" then
    match buf.friends_count with
    | some _ => .error "duplicate field friends_count"
    | none => (decodeU64 v).map fun x => { buf with friends_count := some x }
  else if k = "geo_enabled" then
    match buf.geo_enabled with
    | some _ => .error "duplicate field geo_enabled"
    | none => (decodeBool v).map fun x => { buf with geo_enabled := some x }
  else if k = "id" then
    match buf.id with
    | some _ => .error "duplicate field id"
    | none => (decodeU64 v).map fun x => { buf with id := some x }
  else if k = "is_translator" then
    match buf.is_translator with
    | some _ => .error "duplicate field is_translator"
    | none => (decodeBool v).map fun x => { buf with is_translator := some x }
  else if k = "lang" then
    match buf.lang with
    | some _ => .error "duplicate field lang"
    | none => (decodeStr v).map fun x => { buf with lang := some x }
  else if k = "listed_count" then
    match buf.listed_count with
    | some _ => .error "duplicate field listed_count"
    | none => (decodeU64 v).map fun x => { buf with listed_count := some x }
  else if k = "location" then
    match buf.location with
    | some _ => .error "duplicate field location"
    | none => (decodeOptStr v).map fun x => { buf with location := some x }
  else if k = "name" then
    match buf.name with
    | some _ => .error "duplicate field name"
    | none => (decodeStr v).map fun x => { buf with name := some x }
  else if k = "profile_background_color" then
    match buf.profile_background_color with
    | some _ => .error "duplicate field profile_background_color"
    | none => (decodeStr v).map fun x => { buf with profile_background_color := some x }
  else if k = "profile_background_image_url" then
    match buf.profile_background_image_url with
    | some _ => .error "duplicate field profile_background_image_url"
    | none =>
      (decodeStr v).map fun x => { buf with profile_background_image_url := some x }
  else if k = "profile_background_image_url_https" then
    match buf.profile_background_image_url_https with
    | some _ => .error "duplicate field profile_background_image_url_https"
    | none =>
      (decodeStr v).map fun x => { buf with profile_background_image_url_https := some x }
  else if k = "profile_background_tile" then
    match buf.profile_background_tile with
    | some _ => .error "duplicate field profile_background_tile"
    | none => (decodeBool v).map fun x => { buf with profile_background_tile := some x }
  else if k = "profile_banner_url" then
    match buf.profile_banner_url with
    | some _ => .error "duplicate field profile_banner_url"
    | none => (decodeOptStr v).map fun x => { buf with profile_banner_url := some x }
  else if k = "profile_image_url" then
    match buf.profile_image_url with
    | some _ => .error "duplicate field profile_image_url"
    | none => (decodeStr v).map fun x => { buf with profile_image_url := some x }
  else if k = "profile_image_url_https" then
    match buf.profile_image_url_https with
    | some _ => .error "duplicate field profile_image_url_https"
    | none => (decodeStr v).map fun x => { buf with profile_image_url_https := some x }
  else if k = "profile_link_color" then
    match buf.profile_link_color with
    | some _ => .error "duplicate field profile_link_color"
    | none => (decodeStr v).map fun x => { buf with profile_link_color := some x }
  else if k = "profile_sidebar_border_color" then
    match buf.profile_sidebar_border_color with
    | some _ => .error "duplicate field profile_sidebar_border_color"
    | none =>
      (decodeStr v).map fun x => { buf with profile_sidebar_border_color := some x }
  else if k = "profile_sidebar_fill_color" then
    match buf.profile_sidebar_fill_color with
    | some _ => .error "duplicate field profile_sidebar_fill_color"
    | none =>
      (decodeStr v).map fun x => { buf with profile_sidebar_fill_color := some x }
  else if k = "profile_text_color" then
    match buf.profile_text_color with
    | some _ => .error "duplicate field profile_text_color"
    | none => (decodeStr v).map fun x => { buf with profile_text_color := some x }
  else if k = "profile_use_background_image" then
    match buf.profile_use_background_image with
    | some _ => .error "duplicate field profile_use_background_image"
    | none =>
      (decodeBool v).map fun x => { buf with profile_use_background_image := some x }
  else if k = "protected" then
    match buf.protected_ with
    | some _ => .error "duplicate field protected"
    | none => (decodeBool v).map fun x => { buf with protected_ := some x }
  else if k = "screen_name" then
    match buf.screen_name with
    | some _ => .error "duplicate field screen_name"
    | none => (decodeStr v).map fun x => { buf with screen_name := some x }
  else if k = "statuses_count" then
    match buf.statuses_count with
    | some _ => .error "duplicate field statuses_count"
    | none => (decodeU64 v).map fun x => { buf with statuses_count := some x }
  else if k = "time_zone" then
    match buf.time_zone with
    | some _ => .error "duplicate field time_zone"
    | none => (decodeOptStr v).map fun x => { buf with time_zone := some x }
  else if k = "url" then
    match buf.url with
    | some _ => .error "duplicate field url"
    | none => (decodeOptStr v).map fun x => { buf with url := some x }
  else if k = "utc_offset" then
    match buf.utc_offset with
    | some _ => .error "duplicate field utc_offset"
    | none => (decodeOptI64 v).map fun x => { buf with utc_offset := some x }
  else if k = "verified" then
    match buf.verified with
    | some _ => .error "duplicate field verified"
    | none => (decodeBool v).map fun x => { buf with verified := some x }
  else if k = "withheld_in_countries" then
    match buf.withheld_in_countries with
    | some _ => .error "duplicate field withheld_in_countries"
    | none => (decodeOptStr v).map fun x => { buf with withheld_in_countries := some x }
  else if k = "withheld_scope" then
    match buf.withheld_scope with
    | some _ => .error "duplicate field withheld_scope"
    | none => (decodeOptWithheldScope v).map fun x => { buf with withheld_scope := some x }
  else .ok buf

/-- Runs `userStep` over an object's entries in arrival order. -/
def userEntries : List (String × JsonValue) → UserBuffer → Except String UserBuffer
  | [], buf => .ok buf
  | (k, v) :: rest, buf =>
    match userStep buf k v with
    | .ok buf2 => userEntries rest buf2
    | .error e => .error e

/-- A mandatory field slot: empty means the derived deserializer fails
with a missing-field error naming the field. -/
def reqField (fieldName : String) : Option α → Except String α
  | some a => .ok a
  | none => .error ("missing field " ++ fieldName)

/-- An optional field slot (`Option` typed or `#[serde(default)]`): empty
means the field is absent and defaults to `none`. -/
def optField : Option (Option α) → Option α
  | some a => a
  | none => none

/-- The final construction of the derived `User` deserializer: mandatory
fields are demanded in declaration order (the first missing one is the
error reported), optional fields default to `none`. -/
def userFinish (buf : UserBuffer) : Except String User := do
  let contributors_enabled ← reqField "contributors_enabled" buf.contributors_enabled
  let created_at ← reqField "created_at" buf.created_at
  let default_profile ← reqField "default_profile" buf.default_profile
  let default_profile_image ← reqField "default_profile_image" buf.default_profile_image
  let favourites_count ← reqField "favourites_count" buf.favourites_count
  let followers_count ← reqField "followers_count" buf.followers_count
  let friends_count ← reqField "friends_count" buf.friends_count
  let geo_enabled ← reqField "geo_enabled" buf.geo_enabled
  let id ← reqField "id" buf.id
  let is_translator ← reqField "is_translator" buf.is_translator
  let lang ← reqField "lang" buf.lang
  let listed_count ← reqField "listed_count" buf.listed_count
  let name ← reqField "name" buf.name
  let profile_background_color ←
    reqField "profile_background_color" buf.profile_background_color
  let profile_background_image_url ←
    reqField "profile_background_image_url" buf.profile_background_image_url
  let profile_background_image_url_https ←
    reqField "profile_background_image_url_https" buf.profile_background_image_url_https
  let profile_background_tile ←
    reqField "profile_background_tile" buf.profile_background_tile
  let profile_image_url ← reqField "profile_image_url" buf.profile_image_url
  let profile_image_url_https ←
    reqField "profile_image_url_https" buf.profile_image_url_https
  let profile_link_color ← reqField "profile_link_color" buf.profile_link_color
  let profile_sidebar_border_color ←
    reqField "profile_sidebar_border_color" buf.profile_sidebar_border_color
  let profile_sidebar_fill_color ←
    reqField "profile_sidebar_fill_color" buf.profile_sidebar_fill_color
  let profile_text_color ← reqField "profile_text_color" buf.profile_text_color
  let profile_use_background_image ←
    reqField "profile_use_background_image" buf.profile_use_background_image
  let protected_ ← reqField "protected" buf.protected_
  let screen_name ← reqField "screen_name" buf.screen_name
  let statuses_count ← reqField "statuses_count" buf.statuses_count
  let verified ← reqField "verified" buf.verified
  .ok { contributors_enabled, created_at, default_profile, default_profile_image,
        description := optField buf.description, favourites_count,
        follow_request_sent := optField buf.follow_request_sent, followers_count,
        friends_count, geo_enabled, id, is_translator, lang, listed_count,
        location := optField buf.location, name, profile_background_color,
        profile_background_image_url, profile_background_image_url_https,
        profile_background_tile, profile_banner_url := optField buf.profile_banner_url,
        profile_image_url, profile_image_url_https, profile_link_color,
        profile_sidebar_border_color, profile_sidebar_fill_color, profile_text_color,
        profile_use_background_image, protected_, screen_name, statuses_count,
        time_zone := optField buf.time_zone, url := optField buf.url,
        utc_offset := optField buf.utc_offset, verified,
        withheld_in_countries := optField buf.withheld_in_countries,
        withheld_scope := optField buf.withheld_scope }

/-- `<User as Deserialize>::deserialize` (derived in `src/src/user.rs`):
the value must be a JSON object; its entries are processed in arrival
order and the struct is then assembled, failing on any missing mandatory
field. -/
def decode_user (v : JsonValue) : Except String User :=
  match v with
  | .obj fs =>
    match userEntries fs {} with
    | .ok buf => userFinish buf
    | .error e => .error e
  | _ => .error "invalid type: expected struct User"

/-- Modelled from the spec: the `Tweet` payload type (an external
collaborator not under `src/`), decodable from a JSON object value. -/
structure Tweet where
  fields : List (String × JsonValue)

/-- Modelled from the spec: the deserializer of `Box<Tweet>`; it decodes a
JSON object value and fails on anything that is not an object.  Its error
carries only the structural cause, as serde errors do. -/
def decode_tweet : JsonValue → Except String Tweet
  | .obj fs => .ok ⟨fs⟩
  | _ => .error "invalid type: expected struct Tweet"

/-- Modelled from the spec: the `List` payload type (an external
collaborator not under `src/`), decodable from a JSON object value.
Named `TwitterList` to avoid clashing with `List`. -/
structure TwitterList where
  fields : List (String × JsonValue)

/-- Modelled from the spec: the deserializer of `Box<List>`; it decodes a
JSON object value and fails on anything that is not an object. -/
def decode_list : JsonValue → Except String TwitterList
  | .obj fs => .ok ⟨fs⟩
  | _ => .error "invalid type: expected struct List"

/-- The `EventKind` enum generated by the `impl_event!` invocation in
`src/src/message/event.rs`: ten container variants carrying a typed
payload, six label variants, and the `Custom` fallback carrying the raw
discriminator and an optional raw payload. -/
inductive EventKind : Type where
  | Favorite : Tweet → EventKind
  | Unfavorite : Tweet → EventKind
  | ListCreated : TwitterList → EventKind
  | ListDestroyed : TwitterList → EventKind
  | ListUpdated : TwitterList → EventKind
  | ListMemberAdded : TwitterList → EventKind
  | ListMemberRemoved : TwitterList → EventKind
  | ListUserSubscribed : TwitterList → EventKind
  | ListUserUnsubscribed : TwitterList → EventKind
  | QuotedTweet : Tweet → EventKind
  | AccessRevoked : EventKind
  | Block : EventKind
  | Unblock : EventKind
  | Follow : EventKind
  | Unfollow : EventKind
  | UserUpdate : EventKind
  | Custom : String → Option JsonValue → EventKind

/-- The `Event` struct: timestamp, resolved event kind, and the two
participant references. -/
structure Event where
  created_at : DateTime
  event : EventKind
  target : User
  source : User

/-- Errors produced while decoding one event object, mirroring the error
constructions in `EventVisitor::visit_map`: `decode` is an error raised by
`next_value` while deserializing a value from the stream, `custom` is
`A::Error::custom`, `missingField` is `A::Error::missing_field`, and
`unreachable` marks the `unreachable!()` arm of the missing-field match. -/
inductive DecodeError : Type where
  | decode : String → DecodeError
  | custom : String → DecodeError
  | missingField : String → DecodeError
  | unreachable : DecodeError
deriving DecidableEq, Repr

/-- An enumeration of the ten container tags, used to name which container
arm of the macro-generated match was selected. -/
inductive ContainerTag : Type where
  | Favorite | Unfavorite
  | ListCreated | ListDestroyed | ListUpdated
  | ListMemberAdded | ListMemberRemoved
  | ListUserSubscribed | ListUserUnsubscribed
  | QuotedTweet
deriving DecidableEq, Repr

/-- The container rows of the tag table: the `$c_tag` string patterns of
the macro-generated match arms.  A string is a container tag iff this
returns `some`. -/
def containerTag (s : String) : Option ContainerTag :=
  if s = "favorite" then some .Favorite
  else if s = "unfavorite" then some .Unfavorite
  else if s = "list_created" then some .ListCreated
  else if s = "list_destroyed" then some .ListDestroyed
  else if s = "list_updated" then some .ListUpdated
  else if s = "list_member_added" then some .ListMemberAdded
  else if s = "list_member_removed" then some .ListMemberRemoved
  else if s = "list_user_subscribed" then some .ListUserSubscribed
  else if s = "list_user_unsubscribed" then some .ListUserUnsubscribed
  else if s = "quoted_tweet" then some .QuotedTweet
  else none

/-- The body of a container arm: decode the raw payload value as the tag's
declared payload type (`Box<Tweet>` or `Box<List>`) and wrap it in the
corresponding `EventKind` constructor.  The error is the payload
deserializer's own error; no tag name is attached. -/
def applyContainer (t : ContainerTag) (v : JsonValue) : Except String EventKind :=
  match t with
  | .Favorite => (decode_tweet v).map .Favorite
  | .Unfavorite => (decode_tweet v).map .Unfavorite
  | .ListCreated => (decode_list v).map .ListCreated
  | .ListDestroyed => (decode_list v).map .ListDestroyed
  | .ListUpdated => (decode_list v).map .ListUpdated
  | .ListMemberAdded => (decode_list v).map .ListMemberAdded
  | .ListMemberRemoved => (decode_list v).map .ListMemberRemoved
  | .ListUserSubscribed => (decode_list v).map .ListUserSubscribed
  | .ListUserUnsubscribed => (decode_list v).map .ListUserUnsubscribed
  | .QuotedTweet => (decode_tweet v).map .QuotedTweet

/-- The label rows of the tag table: the `$l_tag` string patterns of the
macro-generated match arms.  A string is a label tag iff this returns
`some` of the corresponding payload-free `EventKind`. -/
def labelKind (s : String) : Option EventKind :=
  if s = "access_revoked" then some .AccessRevoked
  else if s = "block" then some .Block
  else if s = "unblock" then some .Unblock
  else if s = "follow" then some .Follow
  else if s = "unfollow" then some .Unfollow
  else if s = "user_update" then some .UserUpdate
  else none

/-- The ten container discriminator strings of the tag table. -/
def containerTags : List String :=
  ["favorite", "unfavorite", "list_created", "list_destroyed",
   "list_updated", "list_member_added", "list_member_removed",
   "list_user_subscribed", "list_user_unsubscribed", "quoted_tweet"]

/-- The six label discriminator strings of the tag table. -/
def labelTags : List String :=
  ["access_revoked", "block", "unblock", "follow", "unfollow", "user_update"]

/-- All known discriminator strings; any other string falls through to the
`Custom` variant. -/
def knownTags : List String := containerTags ++ labelTags

/-- Models `a.next_value::<Option<JsonValue>>()`: JSON `null` decodes to
`none`, any other value to `some` of itself. -/
def nullable : JsonValue → Option JsonValue
  | .null => none
  | v => some v

/-- The `EventBuffer` struct local to `EventVisitor::visit_map`: the four
partially-assembled fields of the `Event` record. -/
structure EventBuffer where
  created_at : Option DateTime := none
  event : Option EventKind := none
  target : Option User := none
  source : Option User := none

/-- The early-completion pattern match of `visit_map`: once all four
fields of the buffer are present, the assembled `Event`. -/
def EventBuffer.complete : EventBuffer → Option Event
  | ⟨some c, some e, some t, some s⟩ => some ⟨c, e, t, s⟩
  | _ => none

/-- One iteration of the key loop of `EventVisitor::visit_map`
(src/src/message/event.rs, lines 96–141): dispatch on the key name and
update the buffer and the two auxiliary slots `event_kind` (pending
container discriminator) and `target_obj` (pending raw payload). -/
def processKey (k : String) (v : JsonValue) (buf : EventBuffer)
    (event_kind : Option String) (target_obj : Option JsonValue) :
    Except DecodeError (EventBuffer × Option String × Option JsonValue) :=
  if k = "created_at" then
    match v with
    | .str s =>
      match parse_datetime s with
      | .ok dt => .ok ({ buf with created_at := some dt }, event_kind, target_obj)
      | .error msg => .error (.custom msg)
    | _ => .error (.decode "invalid type: expected a string")
  else if k = "event" then
    match v with
    | .str e =>
      match target_obj with
      | some t =>
        match containerTag e with
        | some ct =>
          match applyContainer ct t with
          | .ok kind => .ok ({ buf with event := some kind }, event_kind, none)
          | .error msg => .error (.custom msg)
        | none =>
          match labelKind e with
          | some kind => .ok ({ buf with event := some kind }, event_kind, none)
          | none =>
            .ok ({ buf with event := some (.Custom e (some t)) }, event_kind, none)
      | none =>
        match containerTag e with
        | some _ => .ok ({ buf with event := none }, some e, none)
        | none =>
          match labelKind e with
          | some kind => .ok ({ buf with event := some kind }, event_kind, none)
          | none =>
            .ok ({ buf with event := some (.Custom e none) }, event_kind, none)
    | _ => .error (.decode "invalid type: expected a string")
  else if k = "target" then
    match decode_user v with
    | .ok u => .ok ({ buf with target := some u }, event_kind, target_obj)
    | .error msg => .error (.decode msg)
  else if k = "source" then
    match decode_user v with
    | .ok u => .ok ({ buf with source := some u }, event_kind, target_obj)
    | .error msg => .error (.decode msg)
  else if k = "target_object" then
    match event_kind with
    | some e =>
      match containerTag e with
      | some ct =>
        match applyContainer ct v with
        | .ok kind => .ok ({ buf with event := some kind }, none, target_obj)
        | .error msg => .error (.decode msg)
      | none =>
        match labelKind e with
        | some kind => .ok ({ buf with event := some kind }, none, target_obj)
        | none =>
          .ok ({ buf with event := some (.Custom e (nullable v)) }, none, target_obj)
    | none =>
      match buf.event with
      | none => .ok (buf, none, some v)
      | some _ => .ok (buf, none, target_obj)
  else .ok (buf, event_kind, target_obj)

/-- The missing-field error selection at the bottom of `visit_map`
(src/src/message/event.rs, lines 156–171): fixed priority `created_at`,
`target`, `source`, then `event` / `target_object` distinguished by
whether a pending payload is held. -/
def missingFieldError (buf : EventBuffer) (target_obj : Option JsonValue) : DecodeError :=
  if buf.created_at.isNone then .missingField "created_at"
  else if buf.target.isNone then .missingField "target"
  else if buf.source.isNone then .missingField "source"
  else if buf.event.isNone then
    .missingField (if target_obj.isSome then "event" else "target_object")
  else .unreachable

/-- The key loop of `EventVisitor::visit_map`: process each entry in
arrival order; after each key, if all four buffer fields are present,
drain the remaining entries (`next_entry::<IgnoredAny, IgnoredAny>`) and
return the assembled `Event`; if the entries are exhausted first, report
the missing-field error. -/
def visit_map : List (String × JsonValue) → EventBuffer → Option String →
    Option JsonValue → Except DecodeError Event
  | [], buf, _, target_obj => .error (missingFieldError buf target_obj)
  | (k, v) :: rest, buf, event_kind, target_obj =>
    match processKey k v buf event_kind target_obj with
    | .error e => .error e
    | .ok (buf', event_kind', target_obj') =>
      match buf'.complete with
      | some ev => .ok ev
      | none => visit_map rest buf' event_kind' target_obj'

/-- `<Event as Deserialize>::deserialize` on a JSON object given as its
list of key/value entries in arrival order: run the visitor from the
empty buffer. -/
def Event.deserialize (entries : List (String × JsonValue)) : Except DecodeError Event :=
  visit_map entries {} none none

/-- A well-formed timestamp string accepted by the datetime parser. -/
def goodDate : String := "Mon Jul 16 12:59:01 +0000 2007"

/-- The parsed instant of `goodDate`. -/
def goodInstant : DateTime := ⟨goodDate⟩

/-- A canonical `created_at` entry carrying a parseable timestamp. -/
def caEntry : String × JsonValue := ("created_at", .str goodDate)

/-- A complete user object carrying every mandatory field of the `User`
struct (with the given id and screen name), so that it is accepted by the
derived deserializer. -/
def userObjFields (uid : Int) (screen : String) : List (String × JsonValue) :=
  [("contributors_enabled", .bool false),
   ("created_at", .str goodDate),
   ("default_profile", .bool true),
   ("default_profile_image", .bool true),
   ("favourites_count", .num 0),
   ("followers_count", .num 0),
   ("friends_count", .num 0),
   ("geo_enabled", .bool false),
   ("id", .num uid),
   ("is_translator", .bool false),
   ("lang", .str "en"),
   ("listed_count", .num 0),
   ("name", .str "Test User"),
   ("profile_background_color", .str "FFFFFF"),
   ("profile_background_image_url", .str "http://example.com/bg.png"),
   ("profile_background_image_url_https", .str "https://example.com/bg.png"),
   ("profile_background_tile", .bool false),
   ("profile_image_url", .str "http://example.com/avatar.png"),
   ("profile_image_url_https", .str "https://example.com/avatar.png"),
   ("profile_link_color", .str "0000FF"),
   ("profile_sidebar_border_color", .str "CCCCCC"),
   ("profile_sidebar_fill_color", .str "DDDDDD"),
   ("profile_text_color", .str "000000"),
   ("profile_use_background_image", .bool true),
   ("protected", .bool false),
   ("screen_name", .str screen),
   ("statuses_count", .num 0),
   ("verified", .bool false)]

/-- The `User` value decoded from `userObjFields uid screen`: every
optional field is absent and defaults to `none`. -/
def mkUser (uid : Nat) (screen : String) : User :=
  { contributors_enabled := false, created_at := goodInstant,
    default_profile := true, default_profile_image := true, description := none,
    favourites_count := 0, follow_request_sent := none, followers_count := 0,
    friends_count := 0, geo_enabled := false, id := uid, is_translator := false,
    lang := "en", listed_count := 0, location := none, name := "Test User",
    profile_background_color := "FFFFFF",
    profile_background_image_url := "http://example.com/bg.png",
    profile_background_image_url_https := "https://example.com/bg.png",
    profile_background_tile := false, profile_banner_url := none,
    profile_image_url := "http://example.com/avatar.png",
    profile_image_url_https := "https://example.com/avatar.png",
    profile_link_color := "0000FF", profile_sidebar_border_color := "CCCCCC",
    profile_sidebar_fill_color := "DDDDDD", profile_text_color := "000000",
    profile_use_background_image := true, protected_ := false,
    screen_name := screen, statuses_count := 0, time_zone := none, url := none,
    utc_offset := none, verified := false, withheld_in_countries := none,
    withheld_scope := none }

/-- A canonical `target` entry (a complete, decodable participant
reference). -/
def targetEntry : String × JsonValue := ("target", .obj (userObjFields 10 "target_user"))

/-- A canonical `source` entry (a complete, decodable participant
reference). -/
def sourceEntry : String × JsonValue := ("source", .obj (userObjFields 20 "source_user"))

/-- The participant reference decoded from `targetEntry`. -/
def targetUser : User := mkUser 10 "target_user"

/-- The participant reference decoded from `sourceEntry`. -/
def sourceUser : User := mkUser 20 "source_user"

/-- A string outside `containerTags` is rejected by every container row of
the tag table. -/
theorem containerTag_eq_none {s : String} (h : s ∉ containerTags) :
    containerTag s = none := by
  simp only [containerTags, List.mem_cons, List.not_mem_nil, or_false] at h
  push_neg at h
  obtain ⟨h1, h2, h3, h4, h5, h6, h7, h8, h9, h10⟩ := h
  simp [containerTag, h1, h2, h3, h4, h5, h6, h7, h8, h9, h10]

/-- A string outside `labelTags` is rejected by every label row of the tag
table. -/
theorem labelKind_eq_none {s : String} (h : s ∉ labelTags) :
    labelKind s = none := by
  simp only [labelTags, List.mem_cons, List.not_mem_nil, or_false] at h
  push_neg at h
  obtain ⟨h1, h2, h3, h4, h5, h6⟩ := h
  simp [labelKind, h1, h2, h3, h4, h5, h6]

/-- C1: for every known container discriminator and every payload value
that decodes as that tag's payload type, decoding an object whose `event`
key precedes `target_object` and decoding the same logical object with
`target_object` preceding `event` yield identical results: identical Event
Unions and, the remaining entries being equal, identical Event Records. -/
theorem claim_C1_order_independence (tag : String) (ct : ContainerTag)
    (hct : containerTag tag = some ct) (v : JsonValue) (k : EventKind)
    (hk : applyContainer ct v = .ok k) (rest : List (String × JsonValue)) :
    Event.deserialize (("event", .str tag) :: ("target_object", v) :: rest) =
      Event.deserialize (("target_object", v) :: ("event", .str tag) :: rest) := by
  simp [Event.deserialize, visit_map, processKey, hct, hk, EventBuffer.complete]

/-- C1 witness: order independence at tag "favorite" with an empty-object
payload and concrete remaining fields. -/
theorem claim_C1_witness :
    Event.deserialize (("event", .str "favorite") :: ("target_object", .obj []) ::
        [caEntry, targetEntry, sourceEntry]) =
      Event.deserialize (("target_object", .obj []) :: ("event", .str "favorite") ::
        [caEntry, targetEntry, sourceEntry]) :=
  claim_C1_order_independence "favorite" .Favorite (by rfl) (.obj [])
    (.Favorite ⟨[]⟩) (by rfl) [caEntry, targetEntry, sourceEntry]

/-- C2 counterexample: with `event: "something_new"` arriving before
`target_object: true`, the decoded Event Union is the custom variant with
an absent payload; the pending raw value is read and discarded, so the
custom variant carrying `("something_new", true)` promised by the claim is
not produced. -/
theorem claim_C2_counterexample :
    Event.deserialize [("event", .str "something_new"), ("target_object", .bool true),
        caEntry, targetEntry, sourceEntry] =
      .ok ⟨goodInstant, .Custom "something_new" none, targetUser, sourceUser⟩ ∧
    EventKind.Custom "something_new" none ≠
      EventKind.Custom "something_new" (some (.bool true)) :=
  ⟨by rfl, by simp⟩

/-- C2 amended: for every unknown discriminator `s`, `event: s` resolves
the event slot immediately to the custom variant with an absent payload,
and a later `target_object` does NOT overwrite that resolution — its value
is read and discarded, so the result carries `(s, absent)` whether or not
a `target_object` follows; the custom variant carries `(s, V)` exactly
when `target_object: V` arrives before `event: s`. -/
theorem claim_C2_unknown_tag (s : String) (hs : s ∉ knownTags) (V : JsonValue)
    (rest : List (String × JsonValue)) :
    Event.deserialize (("event", .str s) :: ("target_object", V) :: rest) =
      Event.deserialize (("event", .str s) :: rest) ∧
    Event.deserialize (("event", .str s) :: rest) =
      visit_map rest ⟨none, some (.Custom s none), none, none⟩ none none ∧
    Event.deserialize (("target_object", V) :: ("event", .str s) :: rest) =
      visit_map rest ⟨none, some (.Custom s (some V)), none, none⟩ none none := by
  simp only [knownTags, List.mem_append, not_or] at hs
  have hc := containerTag_eq_none hs.1
  have hl := labelKind_eq_none hs.2
  refine ⟨?_, ?_, ?_⟩ <;>
    simp [Event.deserialize, visit_map, processKey, hc, hl, EventBuffer.complete]

/-- C2 witness: the amended behavior at `s = "something_new"`,
`V = true`, with no further entries. -/
theorem claim_C2_witness :
    Event.deserialize [("event", .str "something_new"), ("target_object", .bool true)] =
      Event.deserialize [("event", .str "something_new")] ∧
    Event.deserialize [("event", .str "something_new")] =
      visit_map [] ⟨none, some (.Custom "something_new" none), none, none⟩ none none ∧
    Event.deserialize [("target_object", .bool true), ("event", .str "something_new")] =
      visit_map [] ⟨none, some (.Custom "something_new" (some (.bool true))), none, none⟩
        none none :=
  claim_C2_unknown_tag "something_new" (by decide) (.bool true) []

/-- C3 counterexample: an object with decodable `created_at`, `target` and
`source` but no `event` and no `target_object` key fails naming
`target_object`, not `event` as the claim states. -/
theorem claim_C3_counterexample :
    Event.deserialize [caEntry, targetEntry, sourceEntry] =
      .error (.missingField "target_object") ∧
    DecodeError.missingField "target_object" ≠ .missingField "event" :=
  ⟨by rfl, by decide⟩

/-- Entries used to exercise the missing-field priority: each mandatory
field is either supplied with a decodable value (the event as the label
tag "block") or omitted. -/
def presenceEntries (hasCreatedAt hasEvent hasTarget hasSource : Bool) :
    List (String × JsonValue) :=
  (if hasCreatedAt then [caEntry] else []) ++
  (if hasEvent then [("event", JsonValue.str "block")] else []) ++
  (if hasTarget then [targetEntry] else []) ++
  (if hasSource then [sourceEntry] else [])

/-- C3 amended: when the keys are exhausted before all four mandatory
fields are present, the missing-field error follows the fixed priority
`created_at`, then `target`, then `source`, then `event`/`target_object`;
with all of `created_at`/`target`/`source` present but no `event` and no
`target_object` key the error names `target_object`, and it names `event`
exactly when a pending payload was seen without its discriminator. -/
theorem claim_C3_missing_field_priority :
    (∀ hasCreatedAt hasEvent hasTarget hasSource : Bool,
      Event.deserialize (presenceEntries hasCreatedAt hasEvent hasTarget hasSource) =
        if hasCreatedAt && hasEvent && hasTarget && hasSource then
          .ok ⟨goodInstant, .Block, targetUser, sourceUser⟩
        else
          .error (.missingField
            (if !hasCreatedAt then "created_at"
             else if !hasTarget then "target"
             else if !hasSource then "source"
             else "target_object"))) ∧
    Event.deserialize [caEntry, ("target_object", .obj []), targetEntry, sourceEntry] =
      .error (.missingField "event") := by
  constructor
  · intro a b c d
    cases a <;> cases b <;> cases c <;> cases d <;> rfl
  · rfl

/-- A successful run of the visitor loop is insensitive to entries
appended after it: once the buffer completes, every remaining entry is
drained without interpretation. -/
theorem visit_map_ok_append (rest : List (String × JsonValue)) :
    ∀ (pre : List (String × JsonValue)) (buf : EventBuffer) (ek : Option String)
      (tob : Option JsonValue) (e : Event),
      visit_map pre buf ek tob = .ok e →
      visit_map (pre ++ rest) buf ek tob = .ok e := by
  intro pre
  induction pre with
  | nil =>
    intro buf ek tob e h
    simp [visit_map] at h
  | cons hd tl ih =>
    intro buf ek tob e h
    obtain ⟨k, v⟩ := hd
    rw [List.cons_append]
    simp only [visit_map] at h ⊢
    cases hpk : processKey k v buf ek tob with
    | error err => rw [hpk] at h; simp at h
    | ok res =>
      obtain ⟨buf2, ek2, to2⟩ := res
      rw [hpk] at h
      dsimp only at h ⊢
      cases hc : buf2.complete with
      | some ev =>
        rw [hc] at h
        dsimp only at h ⊢
        exact h
      | none =>
        rw [hc] at h
        dsimp only at h ⊢
        exact ih buf2 ek2 to2 e h

/-- C4: once all four Event Record fields become present after processing
some key, the decode early-returns: every remaining key/value pair is
consumed and discarded without interpretation, so appending any trailing
entries (including a later `target_object`) leaves the returned record —
including its resolved `event` value — unchanged. -/
theorem claim_C4_early_completion (pre rest : List (String × JsonValue)) (e : Event)
    (h : Event.deserialize pre = .ok e) :
    Event.deserialize (pre ++ rest) = .ok e :=
  visit_map_ok_append rest pre {} none none e h

/-- C4 witness: the spec's concrete case — `created_at, event: "follow",
target, source` followed by a trailing `target_object`; the result still
carries the `Follow` label. -/
theorem claim_C4_witness :
    Event.deserialize ([caEntry, ("event", .str "follow"), targetEntry, sourceEntry] ++
        [("target_object", .str "garbage")]) =
      .ok ⟨goodInstant, .Follow, targetUser, sourceUser⟩ :=
  claim_C4_early_completion [caEntry, ("event", .str "follow"), targetEntry, sourceEntry]
    [("target_object", .str "garbage")]
    ⟨goodInstant, .Follow, targetUser, sourceUser⟩ (by rfl)

/-- A string accepted by a label row of the tag table is rejected by every
container row. -/
theorem containerTag_eq_none_of_label {s : String} {k : EventKind}
    (h : labelKind s = some k) : containerTag s = none := by
  unfold labelKind at h
  split_ifs at h with h1 h2 h3 h4 h5 h6 <;> subst_vars <;> rfl

/-- C5: for every label discriminator and every JSON value supplied under
`target_object`, in either arrival order the object decodes to that label
variant — the payload value is consumed and discarded and never causes an
error — and absence of a `target_object` is equally valid. -/
theorem claim_C5_label_ignores_payload (tag : String) (k : EventKind)
    (hl : labelKind tag = some k) (V : JsonValue) (c : String) (dt : DateTime)
    (hdt : parse_datetime c = .ok dt) (u1 u2 : JsonValue) (U1 U2 : User)
    (hu1 : decode_user u1 = .ok U1) (hu2 : decode_user u2 = .ok U2) :
    Event.deserialize [("event", .str tag), ("target_object", V),
        ("created_at", .str c), ("target", u1), ("source", u2)] =
      .ok ⟨dt, k, U1, U2⟩ ∧
    Event.deserialize [("target_object", V), ("event", .str tag),
        ("created_at", .str c), ("target", u1), ("source", u2)] =
      .ok ⟨dt, k, U1, U2⟩ ∧
    Event.deserialize [("event", .str tag),
        ("created_at", .str c), ("target", u1), ("source", u2)] =
      .ok ⟨dt, k, U1, U2⟩ := by
  have hc := containerTag_eq_none_of_label hl
  refine ⟨?_, ?_, ?_⟩ <;>
    simp [Event.deserialize, visit_map, processKey, hc, hl, hdt, hu1, hu2,
      EventBuffer.complete]

/-- C5 witness: tag "block" with an erroneous but present string payload,
in both orders, and with the payload absent. -/
theorem claim_C5_witness :
    Event.deserialize [("event", .str "block"), ("target_object", .str "junk"),
        ("created_at", .str goodDate), ("target", .obj (userObjFields 10 "target_user")),
        ("source", .obj (userObjFields 20 "source_user"))] =
      .ok ⟨goodInstant, .Block, targetUser, sourceUser⟩ ∧
    Event.deserialize [("target_object", .str "junk"), ("event", .str "block"),
        ("created_at", .str goodDate), ("target", .obj (userObjFields 10 "target_user")),
        ("source", .obj (userObjFields 20 "source_user"))] =
      .ok ⟨goodInstant, .Block, targetUser, sourceUser⟩ ∧
    Event.deserialize [("event", .str "block"),
        ("created_at", .str goodDate), ("target", .obj (userObjFields 10 "target_user")),
        ("source", .obj (userObjFields 20 "source_user"))] =
      .ok ⟨goodInstant, .Block, targetUser, sourceUser⟩ :=
  claim_C5_label_ignores_payload "block" .Block (by rfl) (.str "junk")
    goodDate goodInstant (by rfl) (.obj (userObjFields 10 "target_user")) (.obj (userObjFields 20 "source_user"))
    targetUser sourceUser (by rfl) (by rfl)

/-- C6 counterexample: `event: "favorite"` with a non-object
`target_object` fails with the payload deserializer's own structural
error; the error value does not contain the tag name "favorite" — indeed
the very same error is produced under tag "unfavorite", so the error
cannot be carrying the tag. -/
theorem claim_C6_counterexample :
    Event.deserialize [("event", .str "favorite"), ("target_object", .str "x")] =
      .error (.decode "invalid type: expected struct Tweet") ∧
    Event.deserialize [("event", .str "unfavorite"), ("target_object", .str "x")] =
      .error (.decode "invalid type: expected struct Tweet") ∧
    ¬ "favorite".toList <:+: "invalid type: expected struct Tweet".toList :=
  ⟨by rfl, by rfl, by decide⟩

/-- C6 amended: for every container discriminator, a `target_object` value
that fails to decode as the tag's declared payload type fails the whole
decode with a payload-decode error carrying the nested structural cause;
the tag name is not part of the error.  When the discriminator precedes
the payload the deserializer's error propagates directly; when the payload
precedes the discriminator it is wrapped as a custom error. -/
theorem claim_C6_payload_error (tag : String) (ct : ContainerTag)
    (hct : containerTag tag = some ct) (v : JsonValue) (msg : String)
    (hv : applyContainer ct v = .error msg) (rest : List (String × JsonValue)) :
    Event.deserialize (("event", .str tag) :: ("target_object", v) :: rest) =
      .error (.decode msg) ∧
    Event.deserialize (("target_object", v) :: ("event", .str tag) :: rest) =
      .error (.custom msg) := by
  refine ⟨?_, ?_⟩ <;>
    simp [Event.deserialize, visit_map, processKey, hct, hv, EventBuffer.complete]

/-- C6 witness: the amended propagation at tag "favorite" with a
string payload, in both orders. -/
theorem claim_C6_witness :
    Event.deserialize [("event", .str "favorite"), ("target_object", .str "y")] =
      .error (.decode "invalid type: expected struct Tweet") ∧
    Event.deserialize [("target_object", .str "y"), ("event", .str "favorite")] =
      .error (.custom "invalid type: expected struct Tweet") :=
  claim_C6_payload_error "favorite" .Favorite (by rfl) (.str "y")
    "invalid type: expected struct Tweet" (by rfl) []

/-- C7: a `created_at` entry whose string value does not parse fails the
whole decode, from any intermediate decoder state, with a date-parse
error; a parse that succeeds overwrites any previously stored value (last
write wins); and the stored instant of the last `created_at` processed is
the one returned in the record. -/
theorem claim_C7_created_at :
    (∀ (x : String) (msg : String) (rest : List (String × JsonValue))
       (buf : EventBuffer) (ek : Option String) (tob : Option JsonValue),
      parse_datetime x = .error msg →
      visit_map (("created_at", .str x) :: rest) buf ek tob = .error (.custom msg)) ∧
    (∀ (s1 s2 : String) (dt1 dt2 : DateTime) (rest : List (String × JsonValue)),
      parse_datetime s1 = .ok dt1 → parse_datetime s2 = .ok dt2 →
      Event.deserialize (("created_at", .str s1) :: ("created_at", .str s2) :: rest) =
        Event.deserialize (("created_at", .str s2) :: rest)) ∧
    (∀ (x : String) (dt : DateTime) (u1 u2 : JsonValue) (U1 U2 : User),
      parse_datetime x = .ok dt →
      decode_user u1 = .ok U1 → decode_user u2 = .ok U2 →
      Event.deserialize [("created_at", .str x), ("event", .str "block"),
        ("target", u1), ("source", u2)] = .ok ⟨dt, .Block, U1, U2⟩) := by
  refine ⟨?_, ?_, ?_⟩
  · intro x msg rest buf ek tob hx
    simp [visit_map, processKey, hx]
  · intro s1 s2 dt1 dt2 rest h1 h2
    simp [Event.deserialize, visit_map, processKey, h1, h2, EventBuffer.complete]
  · intro x dt u1 u2 U1 U2 hx hu1 hu2
    simp [Event.deserialize, visit_map, processKey, containerTag, labelKind, hx, hu1, hu2,
      EventBuffer.complete]

/-- C7 witness: a one-space string fails the parse and the decode; two
parseable `created_at` entries keep the second; the stored instant is
returned. -/
theorem claim_C7_witness :
    visit_map [("created_at", .str "bad date")] {} none none =
      .error (.custom "invalid date-time string: bad date") ∧
    Event.deserialize [("created_at", .str goodDate),
        ("created_at", .str "Tue Jul 17 12:59:01 +0000 2007")] =
      Event.deserialize [("created_at", .str "Tue Jul 17 12:59:01 +0000 2007")] ∧
    Event.deserialize [("created_at", .str goodDate), ("event", .str "block"),
        ("target", .obj (userObjFields 10 "target_user")), ("source", .obj (userObjFields 20 "source_user"))] =
      .ok ⟨goodInstant, .Block, targetUser, sourceUser⟩ :=
  ⟨claim_C7_created_at.1 "bad date" "invalid date-time string: bad date" [] {} none none
      (by rfl),
   claim_C7_created_at.2.1 goodDate "Tue Jul 17 12:59:01 +0000 2007" goodInstant
      ⟨"Tue Jul 17 12:59:01 +0000 2007"⟩ [] (by rfl) (by rfl),
   claim_C7_created_at.2.2 goodDate goodInstant (.obj (userObjFields 10 "target_user"))
      (.obj (userObjFields 20 "source_user")) targetUser sourceUser (by rfl) (by rfl) (by rfl)⟩

/-- C8 counterexample: the tag table holds 16 known discriminator strings
— ten container tags and six labels — not 15 with nine container tags as
the claim counts. -/
theorem claim_C8_counterexample :
    knownTags.length = 16 ∧ containerTags.length = 10 ∧ labelTags.length = 6 ∧
    knownTags.length ≠ 15 ∧ containerTags.length ≠ 9 :=
  ⟨by rfl, by rfl, by rfl, by decide, by decide⟩

/-- C8 amended: the Tag Table recognizes exactly 16 known discriminator
strings — the ten container tags (producing the container variant with a
typed payload) and the six label tags — and every other string falls
through to the custom variant. -/
theorem claim_C8_tag_table :
    containerTags.length = 10 ∧ labelTags.length = 6 ∧ knownTags.length = 16 ∧
    knownTags.Nodup ∧
    (∀ s, (containerTag s).isSome ↔ s ∈ containerTags) ∧
    (∀ s, (labelKind s).isSome ↔ s ∈ labelTags) ∧
    (∀ s, s ∉ knownTags → ∀ (buf : EventBuffer) (ek : Option String) (t : JsonValue),
      processKey "event" (.str s) buf ek (some t) =
        .ok ({ buf with event := some (.Custom s (some t)) }, ek, none) ∧
      processKey "event" (.str s) buf ek none =
        .ok ({ buf with event := some (.Custom s none) }, ek, none)) := by
  refine ⟨by rfl, by rfl, by rfl, by decide, ?_, ?_, ?_⟩
  · intro s
    unfold containerTag
    split_ifs with h1 h2 h3 h4 h5 h6 h7 h8 h9 h10 <;> simp_all [containerTags]
  · intro s
    unfold labelKind
    split_ifs with h1 h2 h3 h4 h5 h6 <;> simp_all [labelTags]
  · intro s hs buf ek t
    simp only [knownTags, List.mem_append, not_or] at hs
    have hc := containerTag_eq_none hs.1
    have hl := labelKind_eq_none hs.2
    constructor <;> simp [processKey, hc, hl]

/-- C8 witness: the unknown discriminator "something_new" falls through to
the custom variant, both with a pending payload and without one. -/
theorem claim_C8_witness :
    processKey "event" (.str "something_new") {} none (some (.bool true)) =
      .ok ({ event := some (.Custom "something_new" (some (.bool true))) }, none, none) ∧
    processKey "event" (.str "something_new") {} none none =
      .ok ({ event := some (.Custom "something_new" none) }, none, none) :=
  claim_C8_tag_table.2.2.2.2.2.2 "something_new" (by decide) {} none (.bool true)

/-- C9: at most one of the two auxiliary slots is ever occupied during one
decode: every key step preserves mutual exclusion of the pending
discriminator and the pending raw payload (and the decode starts with both
empty), and a resolution of the event slot that consumes a pending slot
clears the slot it consumed. -/
theorem claim_C9_aux_slot_invariant (k : String) (v : JsonValue)
    (buf buf2 : EventBuffer) (ek ek2 : Option String) (tob to2 : Option JsonValue)
    (hinv : ¬(ek.isSome ∧ tob.isSome))
    (h : processKey k v buf ek tob = .ok (buf2, ek2, to2)) :
    ¬(ek2.isSome ∧ to2.isSome) ∧
    (k = "event" → tob.isSome → to2 = none) ∧
    (k = "target_object" → ek.isSome → ek2 = none) := by
  unfold processKey at h
  split_ifs at h with hk1 hk2 hk3 hk4 hk5
  -- created_at: the auxiliary slots pass through unchanged
  · subst hk1
    cases v with
    | str x =>
      dsimp only at h
      cases hp : parse_datetime x with
      | ok dt =>
        rw [hp] at h
        simp only [Except.ok.injEq, Prod.mk.injEq] at h
        obtain ⟨-, hek, hto⟩ := h
        subst hek; subst hto
        exact ⟨hinv, by simp, by simp⟩
      | error m => rw [hp] at h; simp at h
    | null => simp at h
    | bool b => simp at h
    | num n => simp at h
    | arr xs => simp at h
    | obj fs => simp at h
  -- event: the pending payload slot is cleared in every outcome
  · subst hk2
    have fin : ∀ (y : Option String), ek2 = y → to2 = none →
        ¬(ek2.isSome ∧ to2.isSome) ∧
        ("event" = "event" → tob.isSome → to2 = none) ∧
        ("event" = "target_object" → ek.isSome → ek2 = none) := by
      intro y hy hn
      subst hn
      exact ⟨by simp, fun _ _ => rfl, by simp⟩
    cases v with
    | str e =>
      dsimp only at h
      cases tob with
      | some t =>
        dsimp only at h
        cases hct : containerTag e with
        | some ct =>
          rw [hct] at h
          dsimp only at h
          cases hap : applyContainer ct t with
          | ok kind =>
            rw [hap] at h
            simp only [Except.ok.injEq, Prod.mk.injEq] at h
            exact fin ek h.2.1.symm h.2.2.symm
          | error m => rw [hap] at h; simp at h
        | none =>
          rw [hct] at h
          dsimp only at h
          cases hlk : labelKind e with
          | some kind =>
            rw [hlk] at h
            simp only [Except.ok.injEq, Prod.mk.injEq] at h
            exact fin ek h.2.1.symm h.2.2.symm
          | none =>
            rw [hlk] at h
            simp only [Except.ok.injEq, Prod.mk.injEq] at h
            exact fin ek h.2.1.symm h.2.2.symm
      | none =>
        dsimp only at h
        cases hct : containerTag e with
        | some ct =>
          rw [hct] at h
          simp only [Except.ok.injEq, Prod.mk.injEq] at h
          exact fin (some e) h.2.1.symm h.2.2.symm
        | none =>
          rw [hct] at h
          dsimp only at h
          cases hlk : labelKind e with
          | some kind =>
            rw [hlk] at h
            simp only [Except.ok.injEq, Prod.mk.injEq] at h
            exact fin ek h.2.1.symm h.2.2.symm
          | none =>
            rw [hlk] at h
            simp only [Except.ok.injEq, Prod.mk.injEq] at h
            exact fin ek h.2.1.symm h.2.2.symm
    | null => simp at h
    | bool b => simp at h
    | num n => simp at h
    | arr xs => simp at h
    | obj fs => simp at h
  -- target: the auxiliary slots pass through unchanged
  · subst hk3
    cases hu : decode_user v with
    | ok u =>
      rw [hu] at h
      simp only [Except.ok.injEq, Prod.mk.injEq] at h
      obtain ⟨-, hek, hto⟩ := h
      subst hek; subst hto
      exact ⟨hinv, by simp, by simp⟩
    | error m => rw [hu] at h; simp at h
  -- source: the auxiliary slots pass through unchanged
  · subst hk4
    cases hu : decode_user v with
    | ok u =>
      rw [hu] at h
      simp only [Except.ok.injEq, Prod.mk.injEq] at h
      obtain ⟨-, hek, hto⟩ := h
      subst hek; subst hto
      exact ⟨hinv, by simp, by simp⟩
    | error m => rw [hu] at h; simp at h
  -- target_object: the pending discriminator slot is cleared in every outcome
  · subst hk5
    have fin : ∀ (z : Option JsonValue), ek2 = none → to2 = z →
        ¬(ek2.isSome ∧ to2.isSome) ∧
        ("target_object" = "event" → tob.isSome → to2 = none) ∧
        ("target_object" = "target_object" → ek.isSome → ek2 = none) := by
      intro z hy hz
      subst hy
      exact ⟨by simp, by simp, fun _ _ => rfl⟩
    cases ek with
    | some e =>
      dsimp only at h
      cases hct : containerTag e with
      | some ct =>
        rw [hct] at h
        dsimp only at h
        cases hap : applyContainer ct v with
        | ok kind =>
          rw [hap] at h
          simp only [Except.ok.injEq, Prod.mk.injEq] at h
          exact fin tob h.2.1.symm h.2.2.symm
        | error m => rw [hap] at h; simp at h
      | none =>
        rw [hct] at h
        dsimp only at h
        cases hlk : labelKind e with
        | some kind =>
          rw [hlk] at h
          simp only [Except.ok.injEq, Prod.mk.injEq] at h
          exact fin tob h.2.1.symm h.2.2.symm
        | none =>
          rw [hlk] at h
          simp only [Except.ok.injEq, Prod.mk.injEq] at h
          exact fin tob h.2.1.symm h.2.2.symm
    | none =>
      dsimp only at h
      cases hbe : buf.event with
      | none =>
        rw [hbe] at h
        simp only [Except.ok.injEq, Prod.mk.injEq] at h
        exact fin (some v) h.2.1.symm h.2.2.symm
      | some q =>
        rw [hbe] at h
        simp only [Except.ok.injEq, Prod.mk.injEq] at h
        exact fin tob h.2.1.symm h.2.2.symm
  -- any other key: the auxiliary slots pass through unchanged
  · simp only [Except.ok.injEq, Prod.mk.injEq] at h
    obtain ⟨-, hek, hto⟩ := h
    subst hek; subst hto
    exact ⟨hinv, fun hq => absurd hq hk2, fun hq => absurd hq hk5⟩

/-- C9 witness: a `target` step from a state holding only a pending
discriminator keeps the slots mutually exclusive. -/
theorem claim_C9_witness :
    ¬((some "favorite" : Option String).isSome ∧ (none : Option JsonValue).isSome) ∧
    ("target" = "event" → (none : Option JsonValue).isSome →
      (none : Option JsonValue) = none) ∧
    ("target" = "target_object" → (some "favorite" : Option String).isSome →
      (some "favorite" : Option String) = none) :=
  claim_C9_aux_slot_invariant "target" (.obj (userObjFields 10 "target_user")) {}
    { target := some targetUser }
    (some "favorite") (some "favorite") none none (by simp) (by rfl)

/-- C10: a pending container discriminator survives a later `event` key
that resolves the event slot directly: after `event: "favorite"` leaves
"favorite" pending, a second `event` key naming any non-container tag
(label or unknown) resolves the event slot, yet a subsequent
`target_object` is resolved against the stale pending "favorite" tag and
overwrites that second resolution with a `Favorite` container variant. -/
theorem claim_C10_stale_pending (s : String) (hs : containerTag s = none)
    (v : JsonValue) (tw : Tweet) (htw : decode_tweet v = .ok tw)
    (c : String) (dt : DateTime) (hdt : parse_datetime c = .ok dt)
    (u1 u2 : JsonValue) (U1 U2 : User) (hu1 : decode_user u1 = .ok U1)
    (hu2 : decode_user u2 = .ok U2) :
    Event.deserialize [("event", .str "favorite"), ("event", .str s),
        ("target_object", v), ("created_at", .str c), ("target", u1),
        ("source", u2)] =
      .ok ⟨dt, .Favorite tw, U1, U2⟩ := by
  have hfav : containerTag "favorite" = some .Favorite := by rfl
  have happ : applyContainer .Favorite v = .ok (.Favorite tw) := by
    simp [applyContainer, htw, Except.map]
  cases hl : labelKind s <;>
    simp [Event.deserialize, visit_map, processKey, hfav, hs, hl, happ, hdt, hu1, hu2,
      EventBuffer.complete]

/-- C10 witness: `event: "favorite"` then `event: "block"` then a decodable
`target_object` yields the `Favorite` container variant, not `Block`. -/
theorem claim_C10_witness :
    Event.deserialize [("event", .str "favorite"), ("event", .str "block"),
        ("target_object", .obj []), ("created_at", .str goodDate),
        ("target", .obj (userObjFields 10 "target_user")), ("source", .obj (userObjFields 20 "source_user"))] =
      .ok ⟨goodInstant, .Favorite ⟨[]⟩, targetUser, sourceUser⟩ :=
  claim_C10_stale_pending "block" (by rfl) (.obj []) ⟨[]⟩ (by rfl)
    goodDate goodInstant (by rfl)
    (.obj (userObjFields 10 "target_user")) (.obj (userObjFields 20 "source_user")) targetUser sourceUser
    (by rfl) (by rfl)
